import Mathlib

/-!
Shallow embedding of `src/fy4b.py` (FY4B AGRI L1 channel extraction and
radiometric calibration).

Modelling conventions:
* an `xarray.DataArray` of DN samples becomes `DataArr`: a rectangular list of
  entries of type `Option ℚ`, where `none` models IEEE NaN (the masked / missing
  sentinel) and `some x` a finite sample; the `FillValue` attribute, the `name`
  and the `units` attribute are carried alongside;
* machine floats become exact rationals (`ℚ`); the claims settled here concern
  branch structure, masking, indexing and exact linear arithmetic, not float
  rounding;
* the mutable `FY4B_AGRI_L1` object becomes an explicit state record
  `FY4BState`; methods become functions from state (plus arguments) to state
  and result;
* raising `ValueError` becomes returning `Except.error` with the message string of the source.
-/

/-- A raw data grid: rows of samples, `none` modelling NaN. -/
abbrev Grid := List (List (Option ℚ))

/-- A grid of (fractional) coordinates, e.g. line or column numbers. -/
abbrev CoordGrid := List (List ℚ)

/-- Model of an `xarray.DataArray` as used by `fy4b.py`: values plus the
`FillValue`, `name` and `units` metadata that the source reads or writes. -/
structure DataArr where
  values : List (List (Option ℚ))
  fillValue : ℚ
  name : Option String := none
  units : Option String := none
  deriving DecidableEq

/-- A target geographic grid description `[lat_S, lat_N, lon_W, lon_E, step]`
as passed to `set_geo_desc` (source line 52). -/
structure GeoDesc where
  lat_S : ℚ
  lat_N : ℚ
  lon_W : ℚ
  lon_E : ℚ
  step : ℚ
  deriving DecidableEq

/-- Calibration metadata of the open file (the `/Calibration` group):
the `CALIBRATION_COEF(SCALE+OFFSET)` rows (one `(k, b)` row per channel,
row `i` belonging to channel `i+1`), and for each channel name the
`CAL{channel_name}` lookup table, given as its attached `dn` coordinate values
together with the stored values in storage order. -/
structure CalMeta where
  coef : List (ℚ × ℚ)
  calTable : String → List ℚ × List ℚ

/-- Constant `CONTENTS` from the source (lines 7-10): channels per resolution. -/
def CONTENTS : List (String × List String) :=
  [("0500M", ["Channel02"]),
   ("1000M", ["Channel01", "Channel02", "Channel03"]),
   ("2000M", ["Channel01", "Channel02", "Channel03", "Channel04", "Channel05",
              "Channel06", "Channel07"]),
   ("4000M", ["Channel01", "Channel02", "Channel03", "Channel04", "Channel05",
              "Channel06", "Channel07", "Channel08", "Channel09", "Channel10",
              "Channel11", "Channel12", "Channel13", "Channel14"])]

/-- Constant `SIZES` from the source (lines 12-15): full-disk row and column counts. -/
def SIZES : List (String × ℕ) :=
  [("0500M", 21984), ("1000M", 10992), ("2000M", 5496), ("4000M", 2748)]

/-- Model of `int(channel_name[-2:])` from source line 94. -/
def channelNum (s : String) : ℕ :=
  ((s.data.reverse.take 2).reverse).foldl (fun acc c => 10 * acc + (c.toNat - 48)) 0

/-- Model of `dn_values.fillna(dn_values.FillValue)` (source line 95): every NaN entry is
replaced by the fill value; finite entries and the metadata are unchanged. -/
def fillna (a : DataArr) : DataArr :=
  { a with values := a.values.map (List.map (fun v => some (v.getD a.fillValue))) }

/-- Insert a `(dn, value)` pair into a list sorted by the dn component. -/
def insertByFst (p : ℚ × ℚ) : List (ℚ × ℚ) → List (ℚ × ℚ)
  | [] => [p]
  | q :: rest => if p.1 ≤ q.1 then p :: q :: rest else q :: insertByFst p rest

/-- Sort a `(dn, value)` table by its dn component; models the sorting that
`scipy.interpolate.interp1d` performs (its default has assume_sorted false). -/
def sortByFst (l : List (ℚ × ℚ)) : List (ℚ × ℚ) := l.foldr insertByFst []

/-- One-dimensional linear interpolation over a table already sorted by dn:
out-of-range points give NaN (`none`), points inside an interval are linearly
interpolated. This is the scipy function `interp1d(kind=linear, bounds_error=False,
fill_value=nan)`, which is what `DataArray.interp` applies by default. -/
def interpSorted : List (ℚ × ℚ) → ℚ → Option ℚ
  | [], _ => none
  | [p], x => if x = p.1 then some p.2 else none
  | p :: q :: rest, x =>
    if x < p.1 then none
    else if x ≤ q.1 then some (p.2 + (q.2 - p.2) * (x - p.1) / (q.1 - p.1))
    else interpSorted (q :: rest) x

/-- Linear interpolation of an arbitrary `(dn, value)` table (sorting first,
as scipy does); models `cal_table.interp(dn=dn_values)` from source line 104. -/
def interpLinear (tbl : List (ℚ × ℚ)) (x : ℚ) : Option ℚ :=
  interpSorted (sortByFst tbl) x

/-- Nearest-breakpoint lookup over a table sorted by dn. -/
def nearestSorted : List (ℚ × ℚ) → ℚ → Option ℚ
  | [], _ => none
  | [p], x => if x = p.1 then some p.2 else none
  | p :: q :: rest, x =>
    if x < p.1 then none
    else if x ≤ q.1 then (if x - p.1 ≤ q.1 - x then some p.2 else some q.2)
    else nearestSorted (q :: rest) x

/-- Modelled from the spec: the specification states that the lookup-table
interpolation method of the calibration engine "is a configurable option,
default nearest". This is the nearest-neighbour table lookup following the
spec wording, written only to be compared with what the source actually
computes in `calibrate`. -/
def specNearestInterp (tbl : List (ℚ × ℚ)) (x : ℚ) : Option ℚ :=
  nearestSorted (sortByFst tbl) x

/-- Method `calibrate` from source lines 87-110, translated branch by branch.
Returns `Except.error` where the source raises. -/
def calibrate (cal : CalMeta) (channel_name calibration : String)
    (dn_values : DataArr) : Except String DataArr :=
  if calibration = "dn" then
    Except.ok { dn_values with units := some "DN" }
  else
    let channel_num := channelNum channel_name
    let dnv := fillna dn_values
    if (calibration = "reflectance" ∧ channel_num ≤ 6) ∨
       (calibration = "radiance" ∧ 6 < channel_num) then
      match cal.coef[channel_num - 1]? with
      | none => Except.error "IndexError"
      | some kb =>
        Except.ok
          { values := dnv.values.map (List.map (fun v =>
              (v.bind (fun x => if x = dnv.fillValue then none else some x)).map
                (fun x => kb.1 * x + kb.2))),
            fillValue := dnv.fillValue,
            name := some (channel_name ++ "_" ++ calibration),
            units := some (if calibration = "reflectance" then "100%"
                           else "mW/ (m2 cm-1 sr)") }
    else if calibration = "brightness_temperature" ∧ 6 < channel_num then
      let t := cal.calTable channel_name
      let cal_table := t.1.zip t.2
      Except.ok
        { values := dnv.values.map (List.map (fun v =>
            interpLinear cal_table (v.getD dnv.fillValue))),
          fillValue := dnv.fillValue,
          name := some (channel_name ++ "_" ++ calibration),
          units := some "K" }
    else
      Except.error (channel_name ++ "没有" ++ calibration ++ "的定标方式")

/-- The element count of `np.arange(start, stop, step)`. -/
def arangeLen (start stop step : ℚ) : ℕ := (⌈(stop - start) / step⌉).toNat

/-- Model of `np.arange(start, stop, step)` over exact rationals. -/
def arange (start stop step : ℚ) : List ℚ :=
  (List.range (arangeLen start stop step)).map (fun (k : ℕ) => start + (k : ℚ) * step)

/-- The latitude axis that `set_geo_desc` builds (source lines 52-53):
`np.arange(1000*lat_N, 1000*lat_S - 1, -1000*step) / 1000`. Note that the
source only multiplies by 1000; it never rounds the products to integers. -/
def latAxis (gd : GeoDesc) : List ℚ :=
  (arange (1000 * gd.lat_N) (1000 * gd.lat_S - 1) (-(1000 * gd.step))).map (fun x => x / 1000)

/-- The longitude axis of `set_geo_desc` (source lines 52, 54):
`np.arange(1000*lon_W, 1000*lon_E + 1, 1000*step) / 1000`. -/
def lonAxis (gd : GeoDesc) : List ℚ :=
  (arange (1000 * gd.lon_W) (1000 * gd.lon_E + 1) (1000 * gd.step)).map (fun x => x / 1000)

/-- Full-disk size of a resolution, looked up in `SIZES`. -/
def sizeOfRes (res : String) : ℚ := ((SIZES.lookup res).getD 0 : ℕ)

/-- Modelled from the spec: `latlon2linecolumn` lives in `projection.py`, which
is not under `src/`; only its call site (source line 57) is. Per the spec
(sections 4.1 and 6) it is a pure, deterministic, elementwise map taking
equal-shape latitude and longitude arrays to fractional line and column arrays
of the same shape, built from resolution-dependent scale and offset constants.
The exact ellipsoid scan geometry being external, it is modelled here as a
representative resolution-dependent affine map; every claim settled against it
uses only that it is elementwise, shape preserving and deterministic. -/
def latlon2linecolumn (lat_mesh lon_mesh : CoordGrid) (resolution : String) :
    CoordGrid × CoordGrid :=
  (List.zipWith (fun lr mr => List.zipWith
      (fun la _ => sizeOfRes resolution / 2 - 10 * la) lr mr) lat_mesh lon_mesh,
   List.zipWith (fun lr mr => List.zipWith
      (fun _ lo => sizeOfRes resolution / 2 + 10 * lo) lr mr) lat_mesh lon_mesh)

/-- The line matrix cached by `set_geo_desc` for a given resolution and grid
description: meshgrid of the two axes followed by the projection. -/
def gridLine (resolution : String) (gd : GeoDesc) : CoordGrid :=
  let lat := latAxis gd
  let lon := lonAxis gd
  (latlon2linecolumn (lat.map (fun la => lon.map (fun _ => la)))
    (lat.map (fun _ => lon)) resolution).1

/-- The column matrix cached by `set_geo_desc`. -/
def gridColumn (resolution : String) (gd : GeoDesc) : CoordGrid :=
  let lat := latAxis gd
  let lon := lonAxis gd
  (latlon2linecolumn (lat.map (fun la => lon.map (fun _ => la)))
    (lat.map (fun _ => lon)) resolution).2

/-- State of one `FY4B_AGRI_L1` object: the fields `__init__` and
`set_geo_desc` assign, plus the file contents the methods read
(`nomData name` is `ds[NOM{name}]`, `nomFill name` its `FillValue` attribute,
`calMeta` the `/Calibration` group). -/
structure FY4BState where
  resolution : String
  line_begin : ℤ
  line_end : ℤ
  column_begin : ℤ
  column_end : ℤ
  geo_desc : Option GeoDesc
  line : CoordGrid
  column : CoordGrid
  nomData : String → Grid
  nomFill : String → ℚ
  calMeta : CalMeta

/-- Method `set_geo_desc` from source lines 47-60. `None` clears the cache; a grid
description rebuilds the latitude/longitude mesh, projects it to native
line/column matrices and caches everything. -/
def set_geo_desc (st : FY4BState) (geo_desc : Option GeoDesc) : FY4BState :=
  match geo_desc with
  | none => { st with geo_desc := none, line := [], column := [] }
  | some gd =>
    { st with geo_desc := some gd,
              line := gridLine st.resolution gd,
              column := gridColumn st.resolution gd }

/-- Rounding used by nearest-neighbour sampling. -/
def roundHalfUp (x : ℚ) : ℤ := ⌊x + 1 / 2⌋

/-- Entry of a grid at integer indices; out of range gives `none`. -/
def entryAt (dn : Grid) (i j : ℤ) : Option ℚ :=
  if 0 ≤ i ∧ 0 ≤ j then
    ((dn[i.toNat]?).bind (fun r => r[j.toNat]?)).join
  else none

/-- Row of a grid at an integer index; out of range gives the empty row. -/
def rowAt (dn : Grid) (i : ℤ) : List (Option ℚ) :=
  if 0 ≤ i then (dn[i.toNat]?).getD [] else []

/-- Linear interpolation along one row at fractional index `v ≥ 0`. -/
def sampleLinearRow (row : List (Option ℚ)) (v : ℚ) : Option ℚ :=
  let j0 : ℤ := ⌊v⌋
  let fv := v - (j0 : ℚ)
  if fv = 0 then (if 0 ≤ j0 then (row[j0.toNat]?).join else none)
  else
    match (if 0 ≤ j0 then (row[j0.toNat]?).join else none),
          (row[(j0 + 1).toNat]?).join with
    | some a, some b => some ((1 - fv) * a + fv * b)
    | _, _ => none

/-- Sampling of the native DN grid at fractional indices `(u, v)` relative to
the origin of the grid itself; models `DataArray.interp` pointwise with methods
nearest and linear: out-of-range points give NaN, NaN neighbours give NaN. -/
def sampleAt (method : String) (dn : Grid) (u v : ℚ) : Option ℚ :=
  let rows : ℚ := (dn.length : ℕ)
  let cols : ℚ := ((dn.head?.getD []).length : ℕ)
  if u < 0 ∨ rows - 1 < u ∨ v < 0 ∨ cols - 1 < v then none
  else if method = "nearest" then entryAt dn (roundHalfUp u) (roundHalfUp v)
  else if method = "linear" then
    let i0 : ℤ := ⌊u⌋
    let fu := u - (i0 : ℚ)
    if fu = 0 then sampleLinearRow (rowAt dn i0) v
    else
      match sampleLinearRow (rowAt dn i0) v, sampleLinearRow (rowAt dn (i0 + 1)) v with
      | some a, some b => some ((1 - fu) * a + fu * b)
      | _, _ => none
  else none

/-- Model of `dn_values.interp(line=self.line, column=self.column, method=...)` from
source lines 78-80: for each point of the cached line/column matrices, sample
the native grid (whose coordinates start at `line_begin`/`column_begin`). -/
def resampleGrid (method : String) (line_begin column_begin : ℤ) (dn : Grid)
    (lineM columnM : CoordGrid) : Grid :=
  List.zipWith (fun lr cr => List.zipWith
      (fun l c => sampleAt method dn (l - (line_begin : ℚ)) (c - (column_begin : ℚ))) lr cr)
    lineM columnM

/-- Method `extract` from source lines 62-85: update the cached grid if a (truthy)
`geo_desc` differing from the cached one is supplied, read the raw DN array of the channel, resample it when a grid is cached, and calibrate. Returns the
updated state together with the result. -/
def extract (st : FY4BState) (channel_name : String) (calibration : String)
    (geo_desc : Option GeoDesc) (interp_method : String) :
    FY4BState × Except String DataArr :=
  let st1 := match geo_desc with
    | some gd => if some gd ≠ st.geo_desc then set_geo_desc st (some gd) else st
    | none => st
  let dn := st1.nomData channel_name
  let dnv : DataArr := { values := dn, fillValue := st1.nomFill channel_name }
  let dnv2 := match st1.geo_desc with
    | some _ =>
      { dnv with values := resampleGrid interp_method st1.line_begin
                             st1.column_begin dn st1.line st1.column }
    | none => dnv
  (st1, calibrate st1.calMeta channel_name calibration dnv2)

/-- The Python slice `file_path[-15:-10]` (source line 32): with clamping exactly
as Python slices clamp, which natural subtraction reproduces. -/
def pyResolution (p : String) : String :=
  String.mk ((p.data.take (p.data.length - 10)).drop (p.data.length - 15))

/-- The file-level attributes `__init__` reads from the open product. -/
structure InitAttrs where
  begin_line : ℤ
  end_line : ℤ
  begin_col : ℤ
  end_col : ℤ
  nomData : String → Grid
  nomFill : String → ℚ
  calMeta : CalMeta

/-- Constructor `__init__` from source lines 23-37: record the attributes, take the
resolution from the file path, then run `set_geo_desc` on the supplied grid
description. No validation of the resolution substring is performed. -/
def initState (file_path : String) (a : InitAttrs) (geo_desc : Option GeoDesc) :
    FY4BState :=
  set_geo_desc
    { resolution := pyResolution file_path,
      line_begin := a.begin_line, line_end := a.end_line,
      column_begin := a.begin_col, column_end := a.end_col,
      geo_desc := none, line := [], column := [],
      nomData := a.nomData, nomFill := a.nomFill, calMeta := a.calMeta }
    geo_desc

/-- The cache invariant the class maintains: whenever a grid description is
cached, the cached line/column matrices are the ones `set_geo_desc` computes
for it at the resolution of the state. -/
def cacheConsistent (st : FY4BState) : Bool :=
  match st.geo_desc with
  | none => true
  | some gd =>
    decide (st.line = gridLine st.resolution gd) &&
    decide (st.column = gridColumn st.resolution gd)

/-- The unit tag `calibrate` attaches for each non-dn calibration kind. -/
def unitFor (calibration : String) : String :=
  if calibration = "reflectance" then "100%"
  else if calibration = "radiance" then "mW/ (m2 cm-1 sr)"
  else "K"

/-!
## Helper lemmas about sorting and table interpolation
-/

lemma mem_insertByFst {p q : ℚ × ℚ} {l : List (ℚ × ℚ)} :
    q ∈ insertByFst p l ↔ q = p ∨ q ∈ l := by
  induction l with
  | nil => simp [insertByFst]
  | cons a t ih =>
    by_cases h : p.1 ≤ a.1
    · simp [insertByFst, h]
    · simp [insertByFst, h, ih, or_left_comm]

lemma perm_insertByFst (p : ℚ × ℚ) (l : List (ℚ × ℚ)) :
    List.Perm (insertByFst p l) (p :: l) := by
  induction l with
  | nil => simp [insertByFst]
  | cons a t ih =>
    by_cases h : p.1 ≤ a.1
    · simp [insertByFst, h]
    · rw [insertByFst, if_neg h]
      exact (ih.cons a).trans (List.Perm.swap p a t)

lemma sortByFst_perm (l : List (ℚ × ℚ)) : List.Perm (sortByFst l) l := by
  induction l with
  | nil => rfl
  | cons a t ih =>
    have : sortByFst (a :: t) = insertByFst a (sortByFst t) := rfl
    rw [this]
    exact (perm_insertByFst a (sortByFst t)).trans (ih.cons a)

lemma sorted_insertByFst {p : ℚ × ℚ} {l : List (ℚ × ℚ)}
    (hl : l.Pairwise (fun a b => a.1 ≤ b.1)) :
    (insertByFst p l).Pairwise (fun a b => a.1 ≤ b.1) := by
  induction l with
  | nil => simp [insertByFst]
  | cons a t ih =>
    rcases List.pairwise_cons.mp hl with ⟨ha, ht⟩
    by_cases h : p.1 ≤ a.1
    · rw [insertByFst, if_pos h]
      refine List.pairwise_cons.mpr ⟨?_, hl⟩
      intro b hb
      rcases List.mem_cons.mp hb with rfl | hb
      · exact h
      · exact le_trans h (ha b hb)
    · rw [insertByFst, if_neg h]
      refine List.pairwise_cons.mpr ⟨?_, ih ht⟩
      intro b hb
      rcases mem_insertByFst.mp hb with rfl | hb
      · exact le_of_lt (lt_of_not_le h)
      · exact ha b hb

lemma sortByFst_sorted (l : List (ℚ × ℚ)) :
    (sortByFst l).Pairwise (fun a b => a.1 ≤ b.1) := by
  induction l with
  | nil => simp [sortByFst]
  | cons a t ih => exact sorted_insertByFst ih

lemma pairwise_fst_zip {R : ℚ → ℚ → Prop} :
    ∀ {l v : List ℚ}, l.Pairwise R → (l.zip v).Pairwise (fun p q => R p.1 q.1) := by
  intro l
  induction l with
  | nil => intro v _; simp
  | cons a t ih =>
    intro v h
    cases v with
    | nil => simp
    | cons b u =>
      rcases List.pairwise_cons.mp h with ⟨ha, ht⟩
      refine List.pairwise_cons.mpr ⟨?_, ih ht⟩
      intro q hq
      exact ha q.1 (List.of_mem_zip hq).1

lemma pairwise_fst_lt_of_le_of_ne {t : List (ℚ × ℚ)}
    (h1 : t.Pairwise (fun a b => a.1 ≤ b.1)) (h2 : t.Pairwise (fun a b => a.1 ≠ b.1)) :
    t.Pairwise (fun a b => a.1 < b.1) := by
  induction t with
  | nil => exact List.Pairwise.nil
  | cons a u ih =>
    rcases List.pairwise_cons.mp h1 with ⟨ha1, hu1⟩
    rcases List.pairwise_cons.mp h2 with ⟨ha2, hu2⟩
    exact List.pairwise_cons.mpr
      ⟨fun b hb => lt_of_le_of_ne (ha1 b hb) (ha2 b hb), ih hu1 hu2⟩

lemma interpSorted_breakpoint :
    ∀ {t : List (ℚ × ℚ)} {d y : ℚ}, t.Pairwise (fun a b => a.1 < b.1) →
      (d, y) ∈ t → interpSorted t d = some y := by
  intro t
  induction t with
  | nil => intro d y _ hm; simp at hm
  | cons p t ih =>
    intro d y hpw hm
    cases t with
    | nil =>
      have hp : (d, y) = p := by simpa using hm
      rw [← hp]
      simp [interpSorted]
    | cons q rest =>
      have hplt : p.1 < q.1 := (List.pairwise_cons.mp hpw).1 q (by simp)
      rcases List.mem_cons.mp hm with hm1 | hm2
      · have hd : d = p.1 := congrArg Prod.fst hm1
        have hy : y = p.2 := congrArg Prod.snd hm1
        rw [interpSorted, if_neg (by rw [hd]; exact lt_irrefl p.1),
          if_pos (by rw [hd]; exact le_of_lt hplt)]
        rw [hd, hy]
        norm_num
      · have hq : q.1 ≤ d := by
          rcases List.mem_cons.mp hm2 with h | h
          · exact le_of_eq (congrArg Prod.fst h).symm
          · exact le_of_lt ((List.pairwise_cons.mp
              (List.pairwise_cons.mp hpw).2).1 (d, y) h)
        have hp : p.1 < d := lt_of_lt_of_le hplt hq
        by_cases hdq : d ≤ q.1
        · have hdq' : d = q.1 := le_antisymm hdq hq
          have hy : y = q.2 := by
            rcases List.mem_cons.mp hm2 with h | h
            · exact congrArg Prod.snd h
            · exfalso
              have := (List.pairwise_cons.mp (List.pairwise_cons.mp hpw).2).1 (d, y) h
              rw [hdq'] at this
              exact lt_irrefl q.1 this
          rw [interpSorted, if_neg (not_lt.mpr (le_of_lt hp)), if_pos hdq, hdq', hy]
          have hne : q.1 - p.1 ≠ 0 := ne_of_gt (sub_pos.mpr hplt)
          field_simp
        · rw [interpSorted, if_neg (not_lt.mpr (le_of_lt hp)), if_neg hdq]
          exact ih (List.pairwise_cons.mp hpw).2 hm2

lemma interpLinear_breakpoint {tbl : List (ℚ × ℚ)} {d y : ℚ}
    (hmono : tbl.Pairwise (fun a b => a.1 < b.1) ∨ tbl.Pairwise (fun a b => b.1 < a.1))
    (hm : (d, y) ∈ tbl) : interpLinear tbl d = some y := by
  have hne : tbl.Pairwise (fun a b => a.1 ≠ b.1) := by
    rcases hmono with h | h
    · exact h.imp (fun hab => ne_of_lt hab)
    · exact h.imp (fun hab => ne_of_gt hab)
  have hperm := sortByFst_perm tbl
  have hne' : (sortByFst tbl).Pairwise (fun a b => a.1 ≠ b.1) :=
    (List.Perm.pairwise_iff (by intro a b h; exact h.symm) hperm).mpr hne
  have hsorted := sortByFst_sorted tbl
  have hlt : (sortByFst tbl).Pairwise (fun a b => a.1 < b.1) :=
    pairwise_fst_lt_of_le_of_ne hsorted hne'
  exact interpSorted_breakpoint hlt (hperm.mem_iff.mpr hm)

/-!
## Claim theorems about `calibrate`
-/

/-- The elementwise action of the linear calibration branch on one DN entry:
NaN stays NaN, a fill-valued sample becomes the NaN sentinel, any other sample
is mapped through `k * x + b`. -/
def linMap (fv k b : ℚ) : Option ℚ → Option ℚ := fun v =>
  match v with
  | none => none
  | some x => if x = fv then none else some (k * x + b)

/-- C1 (amended): for the linear calibrations (reflectance on channels up to 6,
radiance above 6), `calibrate` acts elementwise by `linMap`: every entry equal
to the fill sentinel (and every NaN entry) maps to the NaN sentinel, and every
other entry maps to `k*x + b`, independently of all other entries of the grid.
(The original claim also asserted this for brightness_temperature, which the
code refutes; see the counterexample.) -/
theorem calibrate_linear_fill_invariance (cal : CalMeta) (ch calibration : String)
    (k b : ℚ) (d0 : DataArr)
    (hbr : (calibration = "reflectance" ∧ channelNum ch ≤ 6) ∨
           (calibration = "radiance" ∧ 6 < channelNum ch))
    (hk : cal.coef[channelNum ch - 1]? = some (k, b)) :
    ∃ out, calibrate cal ch calibration d0 = Except.ok out ∧
      out.values = d0.values.map (List.map (linMap d0.fillValue k b)) := by
  rcases hbr with ⟨hc, h6⟩ | ⟨hc, h6⟩ <;> subst hc
  · refine ⟨{ values := d0.values.map (List.map (linMap d0.fillValue k b)),
              fillValue := d0.fillValue,
              name := some (ch ++ "_" ++ "reflectance"),
              units := some "100%" }, ?_, rfl⟩
    simp [calibrate, fillna, hk, h6]
    intro r hr v hv
    cases v with
    | none => simp [linMap]
    | some x => by_cases hx : x = d0.fillValue <;> simp [linMap, hx]
  · have h6' : ¬ (channelNum ch ≤ 6) := by omega
    refine ⟨{ values := d0.values.map (List.map (linMap d0.fillValue k b)),
              fillValue := d0.fillValue,
              name := some (ch ++ "_" ++ "radiance"),
              units := some "mW/ (m2 cm-1 sr)" }, ?_, rfl⟩
    simp [calibrate, fillna, hk, h6, h6']
    intro r hr v hv
    cases v with
    | none => simp [linMap]
    | some x => by_cases hx : x = d0.fillValue <;> simp [linMap, hx]

/-- C2: for a reflective channel (ordinal 1..6) and a DN value different from
the fill sentinel, reflectance calibration returns exactly `k*d + b` from that
coefficient row of that channel, tagged with the percentage reflectance unit. -/
theorem calibrate_reflectance_linearity (cal : CalMeta) (ch : String) (k b d fv : ℚ)
    (hord : 1 ≤ channelNum ch) (h6 : channelNum ch ≤ 6)
    (hk : cal.coef[channelNum ch - 1]? = some (k, b)) (hd : d ≠ fv) :
    calibrate cal ch "reflectance" { values := [[some d]], fillValue := fv } =
      Except.ok { values := [[some (k * d + b)]], fillValue := fv,
                  name := some (ch ++ "_" ++ "reflectance"), units := some "100%" } := by
  simp [calibrate, fillna, hk, hd, h6]

/-- C3: `calibrate` succeeds exactly on the defined (channel, quantity) pairs —
dn for any channel, reflectance for ordinals up to 6, radiance or brightness
temperature for ordinals above 6 — and on every other pair it returns the
named calibration error built from the channel and quantity names. -/
theorem calibrate_defined_combinations (cal : CalMeta) (ch calibration : String)
    (d0 : DataArr) (hord : 1 ≤ channelNum ch) (hlen : channelNum ch ≤ cal.coef.length) :
    ((calibrate cal ch calibration d0).isOk = true ↔
      (calibration = "dn" ∨
       (calibration = "reflectance" ∧ channelNum ch ≤ 6) ∨
       ((calibration = "radiance" ∨ calibration = "brightness_temperature") ∧
         6 < channelNum ch))) ∧
    (¬ (calibration = "dn" ∨
        (calibration = "reflectance" ∧ channelNum ch ≤ 6) ∨
        ((calibration = "radiance" ∨ calibration = "brightness_temperature") ∧
          6 < channelNum ch)) →
      calibrate cal ch calibration d0 =
        Except.error (ch ++ "没有" ++ calibration ++ "的定标方式")) := by
  by_cases hdn : calibration = "dn"
  · subst hdn
    constructor
    · simp [calibrate, Except.isOk, Except.toBool]
    · intro hne; exact absurd (Or.inl rfl) hne
  by_cases hrefl : calibration = "reflectance"
  · subst hrefl
    by_cases h6 : channelNum ch ≤ 6
    · obtain ⟨kb, hkb⟩ : ∃ kb, cal.coef[channelNum ch - 1]? = some kb :=
        ⟨_, List.getElem?_eq_getElem (by omega)⟩
      constructor
      · simp [calibrate, hkb, h6, Except.isOk, Except.toBool]
      · intro hne; exact absurd (Or.inr (Or.inl ⟨rfl, h6⟩)) hne
    · constructor
      · simp [calibrate, h6, Except.isOk, Except.toBool]
      · intro _; simp [calibrate, h6]
  by_cases hrad : calibration = "radiance"
  · subst hrad
    by_cases h6 : 6 < channelNum ch
    · obtain ⟨kb, hkb⟩ : ∃ kb, cal.coef[channelNum ch - 1]? = some kb :=
        ⟨_, List.getElem?_eq_getElem (by omega)⟩
      constructor
      · simp [calibrate, hkb, h6, Except.isOk, Except.toBool]
      · intro hne; exact absurd (Or.inr (Or.inr ⟨Or.inl rfl, h6⟩)) hne
    · constructor
      · simp [calibrate, h6, Except.isOk, Except.toBool]
      · intro _; simp [calibrate, h6]
  by_cases hbt : calibration = "brightness_temperature"
  · subst hbt
    by_cases h6 : 6 < channelNum ch
    · constructor
      · simp [calibrate, h6, Except.isOk, Except.toBool]
      · intro hne; exact absurd (Or.inr (Or.inr ⟨Or.inr rfl, h6⟩)) hne
    · constructor
      · simp [calibrate, h6, Except.isOk, Except.toBool]
      · intro _; simp [calibrate, h6]
  · constructor
    · simp [calibrate, hdn, hrefl, hrad, hbt, Except.isOk, Except.toBool]
    · intro _; simp [calibrate, hdn, hrefl, hrad, hbt]

/-- C4 (amended): for an emissive channel (ordinal above 6), brightness
temperature is computed by interpolating the DN-indexed lookup curve of the channel
at each (fill-restored) DN entry with linear interpolation — the interpolation
fixed library default, not a configurable option defaulting to nearest (the
configurable `interp_method` of `extract`, default nearest, concerns only the
spatial resampling) — and the result is tagged with unit kelvin. -/
theorem calibrate_bt_table_interpolation (cal : CalMeta) (ch : String)
    (d0 : DataArr) (hn : 6 < channelNum ch) :
    ∃ out, calibrate cal ch "brightness_temperature" d0 = Except.ok out ∧
      out.values = d0.values.map (List.map (fun v =>
        interpLinear ((cal.calTable ch).1.zip (cal.calTable ch).2)
          (v.getD d0.fillValue))) ∧
      out.units = some "K" ∧
      out.name = some (ch ++ "_" ++ "brightness_temperature") := by
  have h6' : ¬ (channelNum ch ≤ 6) := by omega
  refine ⟨{ values := d0.values.map (List.map (fun v =>
              interpLinear ((cal.calTable ch).1.zip (cal.calTable ch).2)
                (v.getD d0.fillValue))),
            fillValue := d0.fillValue,
            name := some (ch ++ "_" ++ "brightness_temperature"),
            units := some "K" }, ?_, rfl, rfl, rfl⟩
  simp [calibrate, fillna, hn, h6']

/-- C7: the brightness-temperature lookup curve is indexed by its dn coordinate
values (the effect of swap_dims onto `dn` in the source), so for any strictly
monotonic dn axis — increasing or decreasing — interpolating exactly at a
tabulated dn value returns the tabulated temperature of that row. -/
theorem calibrate_table_reindexed_by_dn (cal : CalMeta) (ch : String)
    (dns vals : List ℚ) (d y fv : ℚ) (hn : 6 < channelNum ch)
    (ht : cal.calTable ch = (dns, vals))
    (hmono : dns.Pairwise (fun a b : ℚ => a < b) ∨ dns.Pairwise (fun a b : ℚ => b < a))
    (hm : (d, y) ∈ dns.zip vals) :
    ∃ out, calibrate cal ch "brightness_temperature"
        { values := [[some d]], fillValue := fv } = Except.ok out ∧
      out.values = [[some y]] := by
  have h6' : ¬ (channelNum ch ≤ 6) := by omega
  have hi : interpLinear (dns.zip vals) d = some y := by
    refine interpLinear_breakpoint ?_ hm
    rcases hmono with h | h
    · exact Or.inl (pairwise_fst_zip h)
    · exact Or.inr (pairwise_fst_zip h)
  refine ⟨{ values := [[some y]], fillValue := fv,
            name := some (ch ++ "_" ++ "brightness_temperature"),
            units := some "K" }, ?_, rfl⟩
  simp [calibrate, fillna, hn, h6', ht, hi]

/-- C8 (amended): every successful `calibrate` call carries the specified unit
tag, and for every calibration other than dn also the composite name
`{channel}_{calibration}`; the dn passthrough, however, returns the input name unchanged (the source returns before assigning `data.name`). -/
theorem calibrate_output_metadata (cal : CalMeta) (ch calibration : String)
    (d0 out : DataArr) (h : calibrate cal ch calibration d0 = Except.ok out) :
    (calibration = "dn" ∧ out.name = d0.name ∧ out.units = some "DN") ∨
    (calibration ≠ "dn" ∧ out.name = some (ch ++ "_" ++ calibration) ∧
      out.units = some (unitFor calibration)) := by
  by_cases hdn : calibration = "dn"
  · subst hdn
    simp [calibrate] at h
    exact Or.inl ⟨rfl, by rw [← h], by rw [← h]⟩
  · refine Or.inr ⟨hdn, ?_⟩
    by_cases hbr : (calibration = "reflectance" ∧ channelNum ch ≤ 6) ∨
        (calibration = "radiance" ∧ 6 < channelNum ch)
    · rcases hc : cal.coef[channelNum ch - 1]? with _ | kb
      · simp [calibrate, hdn, hbr, hc] at h
      · simp [calibrate, hdn, hbr, hc] at h
        rcases hbr with ⟨hcal, _⟩ | ⟨hcal, _⟩ <;> subst hcal <;>
          exact ⟨by rw [← h], by rw [← h]; simp [unitFor]⟩
    · by_cases hbt : calibration = "brightness_temperature" ∧ 6 < channelNum ch
      · simp [calibrate, hdn, hbr, hbt] at h
        obtain ⟨hcal, _⟩ := hbt
        subst hcal
        exact ⟨by rw [← h], by rw [← h]; simp [unitFor]⟩
      · simp [calibrate, hdn, hbr, hbt] at h

/-!
## Helper lemmas about `arange`, the axes and the mesh
-/

lemma arange_pairwise_neg (start stop step : ℚ) (hs : step < 0) :
    (arange start stop step).Pairwise (fun a b => b < a) := by
  unfold arange
  refine List.Pairwise.map _ ?_ (List.pairwise_lt_range _)
  intro a b hab
  have hab' : (a : ℚ) < b := by exact_mod_cast hab
  have := mul_lt_mul_of_neg_right hab' hs
  linarith

lemma arange_pairwise_pos (start stop step : ℚ) (hs : 0 < step) :
    (arange start stop step).Pairwise (fun a b => a < b) := by
  unfold arange
  refine List.Pairwise.map _ ?_ (List.pairwise_lt_range _)
  intro a b hab
  have hab' : (a : ℚ) < b := by exact_mod_cast hab
  have := mul_lt_mul_of_pos_right hab' hs
  linarith

lemma arange_head_pos (start stop step : ℚ) (h : 0 < (stop - start) / step) :
    (arange start stop step).head? = some start := by
  unfold arange arangeLen
  have h1 : 0 < ⌈(stop - start) / step⌉ := Int.ceil_pos.mpr h
  set n := (⌈(stop - start) / step⌉).toNat with hn
  have hn1 : 1 ≤ n := by omega
  obtain ⟨m, hm⟩ : ∃ m, n = m + 1 := ⟨n - 1, by omega⟩
  rw [hm, List.range_succ_eq_map]
  simp

lemma arange_mem (start stop step : ℚ) (m : ℕ) (hm : m < arangeLen start stop step) :
    start + (m : ℚ) * step ∈ arange start stop step := by
  unfold arange
  exact List.mem_map_of_mem _ (List.mem_range.mpr hm)

lemma arangeLen_lower_bound (start stop step : ℚ) (m : ℕ) (s : ℚ) (hs : 0 < s)
    (hr : (stop - start) / step = m + 1 / s) :
    m < arangeLen start stop step := by
  unfold arangeLen
  rw [hr]
  have hc : ⌈(m : ℚ) + 1 / s⌉ = ⌈(1 : ℚ) / s⌉ + m := by
    rw [add_comm]
    exact Int.ceil_add_nat _ m
  rw [hc]
  have hpos : 0 < ⌈(1 : ℚ) / s⌉ := Int.ceil_pos.mpr (by positivity)
  omega

lemma latAxis_pairwise (gd : GeoDesc) (hstep : 0 < gd.step) :
    (latAxis gd).Pairwise (fun a b => b < a) := by
  unfold latAxis
  refine List.Pairwise.map _ ?_ (arange_pairwise_neg (1000 * gd.lat_N)
    (1000 * gd.lat_S - 1) (-(1000 * gd.step)) (by linarith))
  intro a b hab
  linarith

lemma lonAxis_pairwise (gd : GeoDesc) (hstep : 0 < gd.step) :
    (lonAxis gd).Pairwise (fun a b => a < b) := by
  unfold lonAxis
  refine List.Pairwise.map _ ?_ (arange_pairwise_pos (1000 * gd.lon_W)
    (1000 * gd.lon_E + 1) (1000 * gd.step) (by linarith))
  intro a b hab
  linarith

lemma latAxis_head (gd : GeoDesc) (h1 : gd.lat_S < gd.lat_N) (hstep : 0 < gd.step) :
    (latAxis gd).head? = some gd.lat_N := by
  unfold latAxis
  rw [List.head?_map, arange_head_pos]
  · simp only [Option.map_some']
    congr 1
    ring
  · apply div_pos_of_neg_of_neg <;> linarith

lemma lonAxis_head (gd : GeoDesc) (h1 : gd.lon_W < gd.lon_E) (hstep : 0 < gd.step) :
    (lonAxis gd).head? = some gd.lon_W := by
  unfold lonAxis
  rw [List.head?_map, arange_head_pos]
  · simp only [Option.map_some']
    congr 1
    ring
  · apply div_pos <;> linarith

lemma latAxis_endpoint (gd : GeoDesc) (hstep : 0 < gd.step) (m : ℕ)
    (hspan : 1000 * gd.lat_N - 1000 * gd.lat_S = (m : ℚ) * (1000 * gd.step)) :
    gd.lat_S ∈ latAxis gd := by
  have hs : 0 < 1000 * gd.step := by linarith
  have hs0 : (1000 * gd.step) ≠ 0 := ne_of_gt hs
  have hr : ((1000 * gd.lat_S - 1) - 1000 * gd.lat_N) / (-(1000 * gd.step))
      = m + 1 / (1000 * gd.step) := by
    have hnum : (1000 * gd.lat_S - 1) - 1000 * gd.lat_N
        = -((m : ℚ) * (1000 * gd.step) + 1) := by linarith
    rw [hnum, neg_div_neg_eq, add_div, mul_div_cancel_right₀ _ hs0]
  have hlt := arangeLen_lower_bound _ _ _ m (1000 * gd.step) hs hr
  have hmem := arange_mem (1000 * gd.lat_N) (1000 * gd.lat_S - 1)
    (-(1000 * gd.step)) m hlt
  have hval : 1000 * gd.lat_N + (m : ℚ) * (-(1000 * gd.step)) = 1000 * gd.lat_S := by
    linarith
  unfold latAxis
  refine List.mem_map.mpr ⟨_, hmem, ?_⟩
  rw [hval]
  ring

lemma lonAxis_endpoint (gd : GeoDesc) (hstep : 0 < gd.step) (m : ℕ)
    (hspan : 1000 * gd.lon_E - 1000 * gd.lon_W = (m : ℚ) * (1000 * gd.step)) :
    gd.lon_E ∈ lonAxis gd := by
  have hs : 0 < 1000 * gd.step := by linarith
  have hs0 : (1000 * gd.step) ≠ 0 := ne_of_gt hs
  have hr : ((1000 * gd.lon_E + 1) - 1000 * gd.lon_W) / (1000 * gd.step)
      = m + 1 / (1000 * gd.step) := by
    have hnum : (1000 * gd.lon_E + 1) - 1000 * gd.lon_W
        = (m : ℚ) * (1000 * gd.step) + 1 := by linarith
    rw [hnum, add_div, mul_div_cancel_right₀ _ hs0]
  have hlt := arangeLen_lower_bound _ _ _ m (1000 * gd.step) hs hr
  have hmem := arange_mem (1000 * gd.lon_W) (1000 * gd.lon_E + 1)
    (1000 * gd.step) m hlt
  have hval : 1000 * gd.lon_W + (m : ℚ) * (1000 * gd.step) = 1000 * gd.lon_E := by
    linarith
  unfold lonAxis
  refine List.mem_map.mpr ⟨_, hmem, ?_⟩
  rw [hval]
  ring

lemma zipWith_const_row (f : ℚ → ℚ → ℚ) (a : ℚ) (lon : List ℚ) :
    List.zipWith f (lon.map (fun _ => a)) lon = lon.map (fun lo => f a lo) := by
  induction lon with
  | nil => rfl
  | cons b u ih => simp only [List.map_cons, List.zipWith_cons_cons, ih]

lemma mesh_zipWith (f : ℚ → ℚ → ℚ) (lat lon : List ℚ) :
    List.zipWith (fun lr mr => List.zipWith f lr mr)
      (lat.map (fun la => lon.map (fun _ => la))) (lat.map (fun _ => lon)) =
    lat.map (fun la => lon.map (fun lo => f la lo)) := by
  induction lat with
  | nil => rfl
  | cons a t ih =>
    simp only [List.map_cons, List.zipWith_cons_cons, ih, zipWith_const_row]

lemma gridLine_eq (res : String) (gd : GeoDesc) :
    gridLine res gd = (latAxis gd).map (fun la =>
      (lonAxis gd).map (fun _ => sizeOfRes res / 2 - 10 * la)) := by
  unfold gridLine latlon2linecolumn
  exact mesh_zipWith (fun la _ => sizeOfRes res / 2 - 10 * la) _ _

lemma gridColumn_eq (res : String) (gd : GeoDesc) :
    gridColumn res gd = (latAxis gd).map (fun _ =>
      (lonAxis gd).map (fun lo => sizeOfRes res / 2 + 10 * lo)) := by
  unfold gridColumn latlon2linecolumn
  exact mesh_zipWith (fun _ lo => sizeOfRes res / 2 + 10 * lo) _ _

/-- C10: for a well-formed grid description, the latitude axis starts at lat_N
and is strictly decreasing, the longitude axis starts at lon_W and is strictly
increasing, the lat_S / lon_E endpoints belong to the axes whenever the step
divides the respective span at milli-degree scale, and the cached line and
column matrices have exactly the shape (number of latitudes, number of
longitudes). -/
theorem set_geo_desc_mesh_axes (st : FY4BState) (gd : GeoDesc)
    (hlat : gd.lat_S < gd.lat_N) (hlon : gd.lon_W < gd.lon_E) (hstep : 0 < gd.step) :
    (latAxis gd).head? = some gd.lat_N ∧
    (latAxis gd).Pairwise (fun a b => b < a) ∧
    (lonAxis gd).head? = some gd.lon_W ∧
    (lonAxis gd).Pairwise (fun a b => a < b) ∧
    ((∃ m : ℕ, 1000 * gd.lat_N - 1000 * gd.lat_S = (m : ℚ) * (1000 * gd.step)) →
      gd.lat_S ∈ latAxis gd) ∧
    ((∃ m : ℕ, 1000 * gd.lon_E - 1000 * gd.lon_W = (m : ℚ) * (1000 * gd.step)) →
      gd.lon_E ∈ lonAxis gd) ∧
    (set_geo_desc st (some gd)).line.length = (latAxis gd).length ∧
    (∀ r ∈ (set_geo_desc st (some gd)).line, r.length = (lonAxis gd).length) ∧
    (set_geo_desc st (some gd)).column.length = (latAxis gd).length ∧
    (∀ r ∈ (set_geo_desc st (some gd)).column, r.length = (lonAxis gd).length) := by
  refine ⟨latAxis_head gd hlat hstep, latAxis_pairwise gd hstep,
    lonAxis_head gd hlon hstep, lonAxis_pairwise gd hstep,
    fun ⟨m, hm⟩ => latAxis_endpoint gd hstep m hm,
    fun ⟨m, hm⟩ => lonAxis_endpoint gd hstep m hm, ?_, ?_, ?_, ?_⟩
  · simp [set_geo_desc, gridLine_eq]
  · intro r hr
    simp only [set_geo_desc, gridLine_eq, List.mem_map] at hr
    obtain ⟨la, hla, rfl⟩ := hr
    simp
  · simp [set_geo_desc, gridColumn_eq]
  · intro r hr
    simp only [set_geo_desc, gridColumn_eq, List.mem_map] at hr
    obtain ⟨la, hla, rfl⟩ := hr
    simp

/-!
## Resolution substring (C9) and quantization (C6)
-/

/-- C9: the resolution recorded by `__init__` is exactly the Python slice
`file_path[-15:-10]` — for paths of length at least 15 the five characters
starting 15 from the end — and it is recorded without any validation against
the supported resolution set. -/
theorem initState_resolution_substring (p : String) (a : InitAttrs)
    (g : Option GeoDesc) (hlen : 15 ≤ p.data.length) :
    (initState p a g).resolution =
      String.mk ((p.data.drop (p.data.length - 15)).take 5) ∧
    ((p.data.drop (p.data.length - 15)).take 5).length = 5 := by
  constructor
  · have hres : (initState p a g).resolution = pyResolution p := by
      cases g <;> simp [initState, set_geo_desc]
    rw [hres]
    unfold pyResolution
    have hdt : (p.data.take (p.data.length - 10)).drop (p.data.length - 15) =
        (p.data.drop (p.data.length - 15)).take 5 := by
      rw [List.drop_take]
      congr 1
      omega
    rw [hdt]
  · rw [List.length_take, List.length_drop]
    omega

lemma arangeLen_eval (start stop step : ℚ) (n : ℕ)
    (h1 : (n : ℚ) - 1 < (stop - start) / step) (h2 : (stop - start) / step ≤ n) :
    arangeLen start stop step = n := by
  unfold arangeLen
  have hc : ⌈(stop - start) / step⌉ = (n : ℤ) := by
    rw [Int.ceil_eq_iff]
    constructor
    · push_cast
      linarith
    · push_cast
      linarith
  rw [hc]
  omega

/-- C6 (code defect): the source comment announces multiplying by 1000 and
rounding to integers to suppress floating-point drift, but the code only
multiplies — no quantization happens. For the grid description
`[0, 0.0005, 0, 0.0005, 0.0005]` the constructed latitude axis contains the
value 0.0005, which is not an integer number of milli-degrees, i.e. the
latitude values were not quantized to three decimal places before mesh
construction. -/
theorem set_geo_desc_no_quantization :
    ((1 : ℚ) / 2000) ∈ latAxis ⟨0, 1 / 2000, 0, 1 / 2000, 1 / 2000⟩ ∧
    ¬ ∃ n : ℤ, ((1 : ℚ) / 2000) = (n : ℚ) / 1000 := by
  constructor
  · have hlen : arangeLen (1000 * ((1 : ℚ) / 2000)) (1000 * (0 : ℚ) - 1)
        (-(1000 * ((1 : ℚ) / 2000))) = 3 :=
      arangeLen_eval _ _ _ 3 (by norm_num) (by norm_num)
    unfold latAxis arange
    rw [show (⟨0, 1 / 2000, 0, 1 / 2000, 1 / 2000⟩ : GeoDesc).lat_N = 1 / 2000 from rfl,
      show (⟨0, 1 / 2000, 0, 1 / 2000, 1 / 2000⟩ : GeoDesc).lat_S = 0 from rfl,
      show (⟨0, 1 / 2000, 0, 1 / 2000, 1 / 2000⟩ : GeoDesc).step = 1 / 2000 from rfl,
      hlen]
    rw [show List.range 3 = [0, 1, 2] from rfl]
    simp only [List.map_cons, List.map_nil, List.mem_cons]
    left
    norm_num
  · rintro ⟨n, hn⟩
    have h2 : (2 * n : ℚ) = 1 := by
      field_simp at hn
      linarith
    have h2' : (2 * n : ℤ) = 1 := by exact_mod_cast h2
    omega

/-!
## `extract` and the grid cache (C5)
-/

lemma cache_fields (st : FY4BState) (gd : GeoDesc) (hgd : st.geo_desc = some gd)
    (hc : cacheConsistent st = true) :
    st.line = gridLine st.resolution gd ∧ st.column = gridColumn st.resolution gd := by
  unfold cacheConsistent at hc
  rw [hgd] at hc
  simpa using hc

lemma extract_supplied_grid (st : FY4BState) (ch cal m : String) (gd : GeoDesc)
    (hc : cacheConsistent st = true) :
    (extract st ch cal (some gd) m).2 =
      calibrate st.calMeta ch cal
        { values := resampleGrid m st.line_begin st.column_begin (st.nomData ch)
            (gridLine st.resolution gd) (gridColumn st.resolution gd),
          fillValue := st.nomFill ch } := by
  by_cases heq : st.geo_desc = some gd
  · obtain ⟨h1, h2⟩ := cache_fields st gd heq hc
    have hne : ¬ (some gd ≠ st.geo_desc) := by simp [heq]
    simp [extract, hne, heq, h1, h2]
  · have hne : some gd ≠ st.geo_desc := fun h => heq h.symm
    simp [extract, hne, set_geo_desc]

lemma extract_no_grid_cached (st : FY4BState) (ch cal m : String) (gd : GeoDesc)
    (hgd : st.geo_desc = some gd) :
    (extract st ch cal none m).2 = (extract st ch cal (some gd) m).2 := by
  have hne : ¬ (some gd ≠ st.geo_desc) := by simp [hgd]
  simp [extract, hne]

lemma extract_no_grid_native (st : FY4BState) (ch cal m : String)
    (hgd : st.geo_desc = none) :
    (extract st ch cal none m).2 =
      calibrate st.calMeta ch cal
        { values := st.nomData ch, fillValue := st.nomFill ch } := by
  simp [extract, hgd]

/-- C5 (amended): `extract` resamples at the grid that is cached after the
update step — the grid supplied for the call or, when none is supplied, the
previously cached one. Supplying a grid makes the call deterministic in the
supplied inputs: any two states agreeing on the non-cache fields give the same
output (given the cache invariant the class maintains). With no supplied grid
the cached grid is used: the output equals the supplied-grid output when a
grid is cached, and the native passthrough only when the cache is empty. -/
theorem extract_resample_cache_behavior (st1 st2 : FY4BState) (ch cal m : String)
    (gd : GeoDesc)
    (hres : st1.resolution = st2.resolution)
    (hlb : st1.line_begin = st2.line_begin)
    (hcb : st1.column_begin = st2.column_begin)
    (hnd : st1.nomData = st2.nomData)
    (hnf : st1.nomFill = st2.nomFill)
    (hcm : st1.calMeta = st2.calMeta)
    (hc1 : cacheConsistent st1 = true) (hc2 : cacheConsistent st2 = true) :
    (extract st1 ch cal (some gd) m).2 = (extract st2 ch cal (some gd) m).2 ∧
    (st1.geo_desc = some gd →
      (extract st1 ch cal none m).2 = (extract st1 ch cal (some gd) m).2) ∧
    (st1.geo_desc = none →
      (extract st1 ch cal none m).2 =
        calibrate st1.calMeta ch cal
          { values := st1.nomData ch, fillValue := st1.nomFill ch }) := by
  refine ⟨?_, fun h => extract_no_grid_cached st1 ch cal m gd h,
    fun h => extract_no_grid_native st1 ch cal m h⟩
  rw [extract_supplied_grid st1 ch cal m gd hc1,
    extract_supplied_grid st2 ch cal m gd hc2, hres, hlb, hcb, hnd, hnf, hcm]

/-!
## Concrete instances: counterexamples and witnesses
-/

/-- A small concrete file state: 4000M resolution, a 2x2 native DN grid. -/
def stA : FY4BState :=
  { resolution := "4000M", line_begin := 0, line_end := 1,
    column_begin := 0, column_end := 1,
    geo_desc := none, line := [], column := [],
    nomData := fun _ => [[some 1, some 2], [some 3, some 4]],
    nomFill := fun _ => 65535,
    calMeta := { coef := [(2, 3), (5, 7)],
                 calTable := fun _ => ([0, 65535], [200, 300]) } }

/-- A well-formed one-degree grid description. -/
def gdW : GeoDesc := ⟨0, 1, 0, 1, 1⟩

/-- C1 counterexample: under brightness-temperature calibration the fill DN is
not masked: with fill sentinel 65535 and a lookup table whose dn axis reaches
65535, a fill-valued entry is interpolated to the finite temperature 300
instead of becoming the NaN sentinel. -/
theorem calibrate_bt_fill_not_masked_cex :
    (calibrate { coef := [], calTable := fun _ => ([0, 65535], [200, 300]) }
        "Channel07" "brightness_temperature"
        { values := [[some 65535]], fillValue := 65535 }).toOption.map DataArr.values
      = some [[some 300]] ∧ (some (300 : ℚ) : Option ℚ) ≠ none := by
  constructor
  · have hch : channelNum "Channel07" = 7 := rfl
    have hi : interpLinear [((0 : ℚ), (200 : ℚ)), (65535, 300)] 65535 = some 300 := by
      norm_num [interpLinear, sortByFst, insertByFst, interpSorted]
    simp [calibrate, fillna, hch, hi, Except.toOption]
  · simp

/-- C1 witness: for reflectance on channel 3 with coefficients (2, 3), fill
entries and NaN entries map to the NaN sentinel while the entries 2 and 3 map
to 7 and 9, each independent of the fill entries elsewhere. -/
theorem calibrate_linear_fill_invariance_witness :
    (calibrate { coef := [(0, 0), (0, 0), (2, 3), (0, 0), (0, 0), (0, 0), (4, 5)],
                 calTable := fun _ => ([0, 10], [200, 300]) }
        "Channel03" "reflectance"
        { values := [[some 65535, some 2], [none, some 3]],
          fillValue := 65535 }).toOption.map DataArr.values
      = some [[none, some 7], [none, some 9]] := by
  obtain ⟨out, h1, h2⟩ := calibrate_linear_fill_invariance
    { coef := [(0, 0), (0, 0), (2, 3), (0, 0), (0, 0), (0, 0), (4, 5)],
      calTable := fun _ => ([0, 10], [200, 300]) }
    "Channel03" "reflectance" 2 3
    { values := [[some 65535, some 2], [none, some 3]], fillValue := 65535 }
    (Or.inl ⟨rfl, by decide⟩) (by decide)
  rw [h1]
  simp only [Except.toOption, Option.map_some', Option.some.injEq, h2]
  norm_num [linMap]

/-- C2 witness: the concrete scenario — channel ordinal 2, reflectance, DN 300
(the first-row DN of the lookup table of that channel), coefficients (5, 7) —
yields exactly 5*300+7 with the percentage unit tag. -/
theorem calibrate_reflectance_linearity_witness :
    calibrate { coef := [(2, 3), (5, 7)],
                calTable := fun _ => ([300, 400], [55, 66]) }
        "Channel02" "reflectance" { values := [[some 300]], fillValue := 65535 } =
      Except.ok { values := [[some ((5 : ℚ) * 300 + 7)]], fillValue := 65535,
                  name := some ("Channel02" ++ "_" ++ "reflectance"),
                  units := some "100%" } :=
  calibrate_reflectance_linearity
    { coef := [(2, 3), (5, 7)], calTable := fun _ => ([300, 400], [55, 66]) }
    "Channel02" 5 7 300 65535 (by decide) (by decide) (by decide) (by decide)

/-- C3 witness: requesting reflectance for the thermal-only channel 7 raises
the named calibration error. -/
theorem calibrate_defined_combinations_witness :
    calibrate { coef := [(1, 1), (1, 1), (1, 1), (1, 1), (1, 1), (1, 1), (1, 1)],
                calTable := fun _ => ([], []) }
        "Channel07" "reflectance" { values := [[some 5]], fillValue := 9 } =
      Except.error ("Channel07" ++ "没有" ++ "reflectance" ++ "的定标方式") :=
  (calibrate_defined_combinations
    { coef := [(1, 1), (1, 1), (1, 1), (1, 1), (1, 1), (1, 1), (1, 1)],
      calTable := fun _ => ([], []) }
    "Channel07" "reflectance" { values := [[some 5]], fillValue := 9 }
    (by decide) (by decide)).2 (by decide)

/-- C4 counterexample: the table interpolation `calibrate` performs is the
library default, linear — not nearest: over the curve dn [0, 10] to
temperature [200, 300], the DN value 4 yields 240, whereas the dn-nearest
lookup of the spec yields 200. -/
theorem calibrate_bt_default_method_cex :
    (calibrate { coef := [], calTable := fun _ => ([0, 10], [200, 300]) }
        "Channel07" "brightness_temperature"
        { values := [[some 4]], fillValue := 65535 }).toOption.map DataArr.values
      = some [[some 240]] ∧
    specNearestInterp [((0 : ℚ), (200 : ℚ)), (10, 300)] 4 = some 200 ∧
    ((240 : ℚ) ≠ 200) := by
  refine ⟨?_, ?_, by norm_num⟩
  · have hch : channelNum "Channel07" = 7 := rfl
    have hi : interpLinear [((0 : ℚ), (200 : ℚ)), (10, 300)] 4 = some 240 := by
      norm_num [interpLinear, sortByFst, insertByFst, interpSorted]
    simp [calibrate, fillna, hch, hi, Except.toOption]
  · norm_num [specNearestInterp, sortByFst, insertByFst, nearestSorted]

/-- C4 witness: for channel 9 with lookup curve dn [0, 20] to [400, 500], the
DN entry 5 is linearly interpolated to 425 and the result is tagged kelvin. -/
theorem calibrate_bt_table_interpolation_witness :
    (calibrate { coef := [], calTable := fun _ => ([0, 20], [400, 500]) }
        "Channel09" "brightness_temperature"
        { values := [[some 5]], fillValue := 65535 }).toOption.map DataArr.values
      = some [[some 425]] := by
  obtain ⟨out, h1, h2, h3, h4⟩ := calibrate_bt_table_interpolation
    { coef := [], calTable := fun _ => ([0, 20], [400, 500]) }
    "Channel09" { values := [[some 5]], fillValue := 65535 } (by decide)
  rw [h1]
  simp only [Except.toOption, Option.map_some', Option.some.injEq, h2]
  norm_num [interpLinear, sortByFst, insertByFst, interpSorted]

/-- C7 witness: with a strictly decreasing dn axis [30, 20, 10] and values
[500, 450, 400], interpolating at the tabulated dn 20 returns exactly 450. -/
theorem calibrate_table_reindexed_by_dn_witness :
    (calibrate { coef := [], calTable := fun _ => ([30, 20, 10], [500, 450, 400]) }
        "Channel10" "brightness_temperature"
        { values := [[some 20]], fillValue := 65535 }).toOption.map DataArr.values
      = some [[some 450]] := by
  obtain ⟨out, h1, h2⟩ := calibrate_table_reindexed_by_dn
    { coef := [], calTable := fun _ => ([30, 20, 10], [500, 450, 400]) }
    "Channel10" [30, 20, 10] [500, 450, 400] 20 450 65535
    (by decide) rfl (Or.inr (by decide)) (by decide)
  rw [h1]
  simp [Except.toOption, h2]

/-- C8 counterexample: the dn passthrough returns with the input name (here
none), not the composite name Channel01_dn. -/
theorem calibrate_dn_name_cex :
    (calibrate { coef := [], calTable := fun _ => ([], []) } "Channel01" "dn"
        { values := [[some 5]], fillValue := 9 }).toOption.map DataArr.name
      = some none ∧
    (none : Option String) ≠ some ("Channel01" ++ "_" ++ "dn") := by
  constructor
  · simp [calibrate, Except.toOption]
  · simp

lemma cacheConsistent_set (st : FY4BState) (gd : GeoDesc) :
    cacheConsistent (set_geo_desc st (some gd)) = true := by
  simp [cacheConsistent, set_geo_desc]

lemma latAxis_gdW : latAxis gdW = [1, 0] := by
  have hlen : arangeLen (1000 * (1 : ℚ)) (1000 * (0 : ℚ) - 1) (-(1000 * (1 : ℚ))) = 2 :=
    arangeLen_eval _ _ _ 2 (by norm_num) (by norm_num)
  unfold latAxis
  rw [show gdW.lat_N = 1 from rfl, show gdW.lat_S = 0 from rfl,
    show gdW.step = 1 from rfl]
  unfold arange
  rw [hlen, show List.range 2 = [0, 1] from rfl]
  norm_num

lemma lonAxis_gdW : lonAxis gdW = [0, 1] := by
  have hlen : arangeLen (1000 * (0 : ℚ)) (1000 * (1 : ℚ) + 1) (1000 * (1 : ℚ)) = 2 :=
    arangeLen_eval _ _ _ 2 (by norm_num) (by norm_num)
  unfold lonAxis
  rw [show gdW.lon_W = 0 from rfl, show gdW.lon_E = 1 from rfl,
    show gdW.step = 1 from rfl]
  unfold arange
  rw [hlen, show List.range 2 = [0, 1] from rfl]
  norm_num

lemma sizeOfRes_4000 : sizeOfRes "4000M" = 2748 := by
  have h : (List.lookup "4000M" SIZES).getD 0 = 2748 := by decide
  unfold sizeOfRes
  rw [h]
  norm_num

lemma gridLine_gdW : gridLine "4000M" gdW = [[1364, 1364], [1374, 1374]] := by
  rw [gridLine_eq, latAxis_gdW, lonAxis_gdW]
  norm_num [sizeOfRes_4000]

lemma gridColumn_gdW : gridColumn "4000M" gdW = [[1374, 1384], [1374, 1384]] := by
  rw [gridColumn_eq, latAxis_gdW, lonAxis_gdW]
  norm_num [sizeOfRes_4000]

/-- C5 counterexample: two `extract` calls with identical arguments (channel,
dn calibration, no grid supplied for the call) give different outputs
depending on whether a grid was cached beforehand: the state with a cached
grid resamples (here entirely off the native window, giving a NaN mesh), the
fresh state passes the native grid through. -/
theorem extract_stale_cache_cex :
    (extract (set_geo_desc stA (some gdW)) "Channel01" "dn" none "nearest").2 =
      Except.ok { values := [[none, none], [none, none]], fillValue := 65535,
                  units := some "DN" } ∧
    (extract stA "Channel01" "dn" none "nearest").2 =
      Except.ok { values := [[some 1, some 2], [some 3, some 4]], fillValue := 65535,
                  units := some "DN" } ∧
    ([[none, none], [none, none]] : List (List (Option ℚ))) ≠
      [[some 1, some 2], [some 3, some 4]] := by
  refine ⟨?_, ?_, by simp⟩
  · rw [extract_no_grid_cached _ _ _ _ gdW rfl,
      extract_supplied_grid _ _ _ _ gdW (cacheConsistent_set stA gdW)]
    simp only [set_geo_desc, stA]
    rw [gridLine_gdW, gridColumn_gdW]
    have hres : resampleGrid "nearest" (0 : ℤ) 0
        [[some 1, some 2], [some 3, some 4]]
        [[1364, 1364], [1374, 1374]] [[1374, 1384], [1374, 1384]] =
        [[none, none], [none, none]] := by
      norm_num [resampleGrid, sampleAt]
    rw [hres]
    simp [calibrate]
  · rw [extract_no_grid_native stA _ _ _ rfl]
    simp only [stA]
    simp [calibrate]

/-- C5 witness: on a state with a consistently cached grid, calling `extract`
without a grid equals calling it with the cached grid; instantiated via the
cache-behaviour theorem at the concrete state and one-degree grid. -/
theorem extract_resample_cache_behavior_witness :
    (extract (set_geo_desc stA (some gdW)) "Channel01" "dn" none "nearest").2 =
      (extract (set_geo_desc stA (some gdW)) "Channel01" "dn" (some gdW) "nearest").2 :=
  (extract_resample_cache_behavior (set_geo_desc stA (some gdW))
    (set_geo_desc stA (some gdW)) "Channel01" "dn" "nearest" gdW
    rfl rfl rfl rfl rfl rfl
    (cacheConsistent_set stA gdW) (cacheConsistent_set stA gdW)).2.1 rfl

/-- The raw DN grid and the expected output used by the metadata witness. -/
def d8 : DataArr := { values := [[some 4]], fillValue := 9 }

/-- The calibrated output of `d8` for radiance on channel 7. -/
def out8 : DataArr :=
  { values := [[some 11]], fillValue := 9,
    name := some ("Channel07" ++ "_" ++ "radiance"),
    units := some "mW/ (m2 cm-1 sr)" }

/-- Calibration metadata whose seventh coefficient row is (2, 3). -/
def cm8 : CalMeta :=
  { coef := [(0, 0), (0, 0), (0, 0), (0, 0), (0, 0), (0, 0), (2, 3)],
    calTable := fun _ => ([], []) }

/-- C8 witness: the successful radiance calibration of channel 7 carries the
composite name Channel07_radiance and the spectral radiance unit tag. -/
theorem calibrate_output_metadata_witness :
    ("radiance" = "dn" ∧ out8.name = d8.name ∧ out8.units = some "DN") ∨
    ("radiance" ≠ "dn" ∧ out8.name = some ("Channel07" ++ "_" ++ "radiance") ∧
      out8.units = some (unitFor "radiance")) := by
  have hch : channelNum "Channel07" = 7 := rfl
  have hne1 : "radiance" ≠ "dn" := by decide
  have hne2 : "radiance" ≠ "reflectance" := by decide
  have h : calibrate cm8 "Channel07" "radiance" d8 = Except.ok out8 := by
    norm_num [calibrate, fillna, hch, cm8, d8, out8, hne1, hne2]
  exact calibrate_output_metadata cm8 "Channel07" "radiance" d8 out8 h

/-- Trivial file-level attributes for the init witness. -/
def a0 : InitAttrs :=
  { begin_line := 0, end_line := 0, begin_col := 0, end_col := 0,
    nomData := fun _ => [], nomFill := fun _ => 0,
    calMeta := { coef := [], calTable := fun _ => ([], []) } }

/-- C9 witness: a path whose [-15:-10] slice is ZZZZZ — a resolution outside
the supported set (it is a key of neither CONTENTS nor SIZES) — is accepted
and recorded as the resolution unchanged. -/
theorem initState_resolution_substring_witness :
    (initState "0123456789ZZZZZ0123456789" a0 none).resolution = "ZZZZZ" ∧
    List.lookup "ZZZZZ" CONTENTS = none ∧ List.lookup "ZZZZZ" SIZES = none := by
  have h := (initState_resolution_substring "0123456789ZZZZZ0123456789" a0 none
    (by decide)).1
  exact ⟨h.trans (by decide), by decide, by decide⟩

/-- C10 witness: for the one-degree grid, the latitude axis starts at 1 and
contains the endpoint 0, the longitude axis starts at 0 and contains the
endpoint 1, and the cached line matrix has one row per latitude. -/
theorem set_geo_desc_mesh_axes_witness :
    (latAxis gdW).head? = some 1 ∧
    (0 : ℚ) ∈ latAxis gdW ∧
    (lonAxis gdW).head? = some 0 ∧
    (1 : ℚ) ∈ lonAxis gdW ∧
    (set_geo_desc stA (some gdW)).line.length = (latAxis gdW).length := by
  have H := set_geo_desc_mesh_axes stA gdW (by norm_num [gdW]) (by norm_num [gdW])
    (by norm_num [gdW])
  refine ⟨H.1, ?_, H.2.2.1, ?_, H.2.2.2.2.2.2.1⟩
  · exact H.2.2.2.2.1 ⟨1, by norm_num [gdW]⟩
  · exact H.2.2.2.2.2.1 ⟨1, by norm_num [gdW]⟩
